import Mathlib

/-!
Verification of the `protoc-gen-nats-micro` runtime specification.

The visible source of the repository (`src/examples/simple-py/client.py`,
`src/examples/simple-py/server.py`) is example glue around a generated
RPC-over-NATS runtime; the runtime itself (envelope codec, transport
adapter, client stub, service dispatcher, lifecycle) is not part of the
supplied sources and is defined abstractly by the specification.  The
definitions below therefore fall into two groups:

* handlers `MyExampleService.echo` / `MyExampleService.get_greeting`,
  the example request/response message structures, and the concrete calls
  made by the example client are embedded directly from the Python source;
* the runtime itself (codec, transport, stub, dispatcher, lifecycle) is
  modelled from the specification, each such definition carrying a doc
  comment that says so.

Bytes are modelled as natural numbers, headers as ordered association
lists of strings, the wall clock as a natural number of seconds since the
epoch, and asynchronous failure as `Except`.
-/

namespace NatsMicro

/-- Ordered header map: insertion-ordered list of key/value pairs.
Modelled from the spec: `Envelope.headers : ordered mapping<string,string>`. -/
abbrev Headers := List (String × String)

/-- Envelope invariant from the spec: header keys are unique. -/
def Headers.valid (h : Headers) : Prop := (h.map Prod.fst).Nodup

instance (h : Headers) : Decidable h.valid := by
  unfold Headers.valid; infer_instance

/-- First value bound to a key, if any (what `info.headers["X-User-ID"]`
reads in the example server). -/
def Headers.lookup (h : Headers) (k : String) : Option String :=
  (h.find? (fun kv => kv.1 == k)).map Prod.snd

/-- Modelled from the spec: wire envelope, a headers section plus an
opaque binary payload (bytes as naturals). -/
structure Envelope where
  payload : List Nat
  headers : Headers
deriving Repr, DecidableEq

/-- Message `EchoRequest` from the example schema (field `message`). -/
structure EchoRequest where
  message : String
deriving Repr, DecidableEq

/-- Message `EchoResponse` from the example schema (fields `message` and
`timestamp`); the timestamp is seconds since the epoch. -/
structure EchoResponse where
  message : String
  timestamp : Nat
deriving Repr, DecidableEq

/-- Message `GetGreetingRequest` from the example schema (field `name`). -/
structure GetGreetingRequest where
  name : String
deriving Repr, DecidableEq

/-- Message `GetGreetingResponse` from the example schema (field
`greeting`). -/
structure GetGreetingResponse where
  greeting : String
deriving Repr, DecidableEq

/-- A typed message of the example schema. -/
inductive Msg where
  | echoReq (r : EchoRequest)
  | echoResp (r : EchoResponse)
  | greetReq (r : GetGreetingRequest)
  | greetResp (r : GetGreetingResponse)
deriving Repr, DecidableEq

/-- Wire tag of each message type. -/
inductive MsgType where
  | echoReq | echoResp | greetReq | greetResp
deriving Repr, DecidableEq

/-- The schema type of a typed message. -/
def Msg.typeOf : Msg → MsgType
  | .echoReq _ => .echoReq
  | .echoResp _ => .echoResp
  | .greetReq _ => .greetReq
  | .greetResp _ => .greetResp

/-- Numeric wire tag of a message type. -/
def MsgType.tag : MsgType → Nat
  | .echoReq => 0
  | .echoResp => 1
  | .greetReq => 2
  | .greetResp => 3

/-- Length-prefixed string serialization used by the modelled codec. -/
def serStr (s : String) : List Nat :=
  s.length :: s.data.map Char.toNat

/-- Parse one length-prefixed string, returning it and the remaining
bytes; fails on truncation. -/
def parseStr : List Nat → Option (String × List Nat)
  | [] => none
  | n :: rest =>
    if n ≤ rest.length then
      some (String.mk ((rest.take n).map Char.ofNat), rest.drop n)
    else
      none

/-- Serialize a typed message to payload bytes: a tag byte followed by the
fields in schema order. Modelled from the spec: the codec `encode`
payload side. -/
def Msg.serialize : Msg → List Nat
  | .echoReq r => MsgType.echoReq.tag :: serStr r.message
  | .echoResp r => MsgType.echoResp.tag :: serStr r.message ++ [r.timestamp]
  | .greetReq r => MsgType.greetReq.tag :: serStr r.name
  | .greetResp r => MsgType.greetResp.tag :: serStr r.greeting

/-- Parse payload bytes as a message of the expected type; fails when the
tag differs from that of the expected type, on truncation, or on trailing
bytes. Modelled from the spec: the codec `decode` payload side. -/
def MsgType.deserialize (t : MsgType) : List Nat → Option Msg
  | [] => none
  | tag :: rest =>
    if tag = t.tag then
      match t with
      | .echoReq =>
        (parseStr rest).bind fun sr =>
          if sr.2 = [] then some (.echoReq ⟨sr.1⟩) else none
      | .echoResp =>
        (parseStr rest).bind fun sr =>
          match sr.2 with
          | [ts] => some (.echoResp ⟨sr.1, ts⟩)
          | _ => none
      | .greetReq =>
        (parseStr rest).bind fun sr =>
          if sr.2 = [] then some (.greetReq ⟨sr.1⟩) else none
      | .greetResp =>
        (parseStr rest).bind fun sr =>
          if sr.2 = [] then some (.greetResp ⟨sr.1⟩) else none
    else
      none

/-- The error taxonomy of the spec: `Timeout`, `TransportError`,
`DecodeError`, `HandlerError`. Modelled from the spec. -/
inductive RpcError where
  | timeout (method : String) (elapsed : Int)
  | transportError (msg : String)
  | decodeError (msg : String)
  | handlerError (code : String) (msg : String)
deriving Repr, DecidableEq

/-- Modelled from the spec: `encode(typed_message, headers) -> Envelope`. -/
def encode (m : Msg) (h : Headers) : Envelope :=
  { payload := m.serialize, headers := h }

/-- Modelled from the spec:
`decode(Envelope, target_type) -> typed_message, headers`, failing with
`DecodeError` when the bytes do not match the expected schema. -/
def decode (e : Envelope) (t : MsgType) : Except RpcError (Msg × Headers) :=
  match t.deserialize e.payload with
  | none => .error (.decodeError "payload does not match expected schema")
  | some m => .ok (m, e.headers)

theorem parseStr_serStr (s : String) (rest : List Nat) :
    parseStr (serStr s ++ rest) = some (s, rest) := by
  have hlen : s.length = (s.data.map Char.toNat).length := by
    rw [List.length_map]; rfl
  have hle : s.length ≤ (s.data.map Char.toNat ++ rest).length := by
    rw [List.length_append, ← hlen]; omega
  simp only [serStr, parseStr, List.cons_append, if_pos hle]
  congr 1
  refine Prod.ext ?_ ?_
  · show String.mk _ = s
    rw [hlen, List.take_left, List.map_map]
    have : (Char.ofNat ∘ Char.toNat) = id := by
      funext c; exact Char.ofNat_toNat c
    rw [this, List.map_id]
  · show List.drop _ _ = rest
    rw [hlen, List.drop_left]

theorem parseStr_serStr_nil (s : String) :
    parseStr (serStr s) = some (s, []) := by
  have := parseStr_serStr s []
  rwa [List.append_nil] at this

theorem deserialize_serialize (m : Msg) :
    m.typeOf.deserialize m.serialize = some m := by
  cases m with
  | echoReq r =>
    simp [Msg.serialize, Msg.typeOf, MsgType.deserialize, parseStr_serStr_nil]
  | echoResp r =>
    have := parseStr_serStr r.message [r.timestamp]
    simp [Msg.serialize, Msg.typeOf, MsgType.deserialize, List.append_assoc,
      this]
  | greetReq r =>
    simp [Msg.serialize, Msg.typeOf, MsgType.deserialize, parseStr_serStr_nil]
  | greetResp r =>
    simp [Msg.serialize, Msg.typeOf, MsgType.deserialize, parseStr_serStr_nil]

/-- Failure of a raw transport request: no reply within the timeout, or a
connection-level failure. Modelled from the spec. -/
inductive TransportFail where
  | timedOut (elapsed : Int)
  | transport (msg : String)
deriving Repr, DecidableEq

/-- Modelled from the spec: the request-with-timeout primitive of the
Message Transport Adapter. The broker side is modelled by `net`, mapping a
subject and request envelope to either a reply with its latency or no
reply at all; `connected` models the connection state. A non-positive
timeout expires immediately and deterministically; otherwise the call
fails with a timeout unless a reply arrives strictly within `timeout`. -/
def Transport.request (connected : Bool)
    (net : String → Envelope → Option (Nat × Envelope))
    (subject : String) (env : Envelope) (timeout : Int) :
    Except TransportFail Envelope :=
  if timeout ≤ 0 then .error (.timedOut 0)
  else if connected = false then .error (.transport "connection closed")
  else
    match net subject env with
    | none => .error (.timedOut timeout)
    | some lr =>
      if (lr.1 : Int) < timeout then .ok lr.2 else .error (.timedOut timeout)

/-- Modelled from the spec: the structured error envelope
`{code, message}`, distinguishable from a normal payload by the marker
header `error`. -/
def encodeError (code msg : String) : Envelope :=
  { payload := serStr code ++ serStr msg, headers := [("error", "1")] }

/-- Does the envelope carry the error marker header? Modelled from the
spec. -/
def Envelope.isError (e : Envelope) : Bool :=
  e.headers.any (fun kv => kv.1 == "error")

/-- Parse the payload of an error envelope into `(code, message)`.
Modelled from the spec. -/
def parseError (e : Envelope) : Option (String × String) :=
  (parseStr e.payload).bind fun cr =>
    (parseStr cr.2).bind fun mr =>
      if mr.2 = [] then some (cr.1, mr.1) else none

/-- Modelled from the spec: deterministic subject naming
`{service_name}.{version}.{method_name}`. -/
def subjectOf (service version method : String) : String :=
  service ++ "." ++ version ++ "." ++ method

/-- Modelled from the spec: the Client Stub per-method call. Encode the
request with its headers, issue a correlated transport request on the
derived subject, then decode the reply: an error envelope surfaces as
`HandlerError`, an undecodable reply surfaces as `DecodeError`, a timeout
as `Timeout(method, elapsed)`, a connection failure as `TransportError`. -/
def call (connected : Bool)
    (net : String → Envelope → Option (Nat × Envelope))
    (service version method : String) (req : Msg) (respType : MsgType)
    (h : Headers) (timeout : Int) : Except RpcError (Msg × Headers) :=
  match Transport.request connected net (subjectOf service version method)
      (encode req h) timeout with
  | .error (.timedOut e) => .error (.timeout method e)
  | .error (.transport m) => .error (.transportError m)
  | .ok reply =>
    if reply.isError then
      match parseError reply with
      | some cm => .error (.handlerError cm.1 cm.2)
      | none => .error (.decodeError "malformed error envelope")
    else
      decode reply respType

/-- Per-invocation handler context (`info` in the example server, with
`info.headers`). Modelled from the spec RequestContext. -/
structure ServerInfo where
  headers : Headers
deriving Repr, DecidableEq

/-- Modelled from the spec: the dispatcher builds the RequestContext of an
inbound message from the envelope headers, unmodified. -/
def contextOf (env : Envelope) : ServerInfo :=
  { headers := env.headers }

/-- A handler bound to an endpoint: typed request, context and current
clock in, typed response or a `(code, message)` application error out
(a raised exception is modelled as the error case). -/
abbrev HandlerFn := Msg → ServerInfo → Nat → Except (String × String) Msg

/-- Modelled from the spec: an endpoint binds a method name and subject to
a handler expecting a given request type. -/
structure Endpoint where
  name : String
  subject : String
  reqType : MsgType
  handler : HandlerFn

/-- Modelled from the spec: dispatcher handling of one inbound message:
decode the envelope, build the context, invoke the handler, and publish
either the encoded response or a structured error envelope. Every failure
(undecodable request or handler error) becomes an error envelope; the
function is total, so no failure escapes the dispatch loop. -/
def handleMessage (ep : Endpoint) (now : Nat) (env : Envelope) : Envelope :=
  match decode env ep.reqType with
  | .error _ =>
    encodeError "DecodeError" "request payload does not match expected schema"
  | .ok rqh =>
    match ep.handler rqh.1 (contextOf env) now with
    | .ok resp => encode resp []
    | .error cm => encodeError cm.1 cm.2

/-- Modelled from the spec: the dispatch loop over a batch of inbound
messages, each tagged with its correlation id; every message is dispatched
independently and produces exactly one published reply. -/
def dispatchAll (ep : Endpoint) (now : Nat) (msgs : List (String × Envelope)) :
    List (String × Envelope) :=
  msgs.map fun m => (m.1, handleMessage ep now m.2)

/-- Lifecycle states of a service instance. Modelled from the spec. -/
inductive SvcState where
  | starting | running | stopping | stopped
deriving Repr, DecidableEq

/-- Modelled from the spec: a registered service instance: identity,
ordered endpoint sequence, live subscriptions and lifecycle state. -/
structure ServiceInstance where
  id : String
  name : String
  version : String
  eps : List Endpoint
  subscriptions : List String
  state : SvcState

/-- Modelled from the spec: registration builds one endpoint per declared
method in declaration order, subscribes to every method subject, and
enters `Running`. -/
def registerService (id name version : String)
    (methods : List (String × MsgType × HandlerFn)) : ServiceInstance :=
  let eps := methods.map fun m =>
    Endpoint.mk m.1 (subjectOf name version m.1) m.2.1 m.2.2
  { id := id, name := name, version := version, eps := eps,
    subscriptions := eps.map (fun ep => ep.subject), state := .running }

/-- Modelled from the spec: `endpoints()` returns the registered endpoint
names in registration order. -/
def ServiceInstance.endpoints (s : ServiceInstance) : List String :=
  s.eps.map (fun ep => ep.name)

/-- Modelled from the spec: `info()` returns a snapshot of the service
instance. -/
def ServiceInstance.info (s : ServiceInstance) : ServiceInstance := s

/-- Modelled from the spec: a service accepts an inbound message only
while `Running` and subscribed to its subject. -/
def acceptsMessage (s : ServiceInstance) (subject : String) : Bool :=
  s.state == .running && s.subscriptions.contains subject

/-- Modelled from the spec: delivery of one inbound broker message to a
service; returns the reply envelope when a handler was invoked and `none`
when the message is not accepted (so no handler runs). -/
def onMessage (s : ServiceInstance) (subject : String) (env : Envelope)
    (now : Nat) : Option Envelope :=
  if acceptsMessage s subject then
    (s.eps.find? (fun ep => ep.subject == subject)).map
      fun ep => handleMessage ep now env
  else
    none

/-- Modelled from the spec: entering `Stopping` unsubscribes from all
endpoint subjects, so no new messages are accepted. -/
def ServiceInstance.beginStop (s : ServiceInstance) : ServiceInstance :=
  { s with state := .stopping, subscriptions := [] }

/-- Modelled from the spec: `stop()` enters `Stopping`, drains in-flight
invocations, then marks the instance `Stopped`. -/
def ServiceInstance.stop (s : ServiceInstance) : ServiceInstance :=
  { s.beginStop with state := .stopped }

/-- Handler `MyExampleService.echo` from `src/examples/simple-py/server.py`:
return the request message together with the current time
(`int(time.time())`, the wall clock modelled as a natural number of
seconds since the epoch, passed explicitly). -/
def MyExampleService.echo (req : EchoRequest) (info : ServerInfo)
    (now : Nat) : EchoResponse :=
  { message := req.message, timestamp := now }

/-- Handler `MyExampleService.get_greeting` from
`src/examples/simple-py/server.py`: return a personalized greeting
`"Hello, {name}!"`. -/
def MyExampleService.get_greeting (req : GetGreetingRequest)
    (info : ServerInfo) : GetGreetingResponse :=
  { greeting := "Hello, " ++ req.name ++ "!" }

/-- The echo handler bound as a dispatcher handler for the typed message
universe. -/
def echoHandlerFn : HandlerFn := fun m info now =>
  match m with
  | .echoReq r => .ok (.echoResp (MyExampleService.echo r info now))
  | _ => .error ("InvalidRequest", "expected EchoRequest")

/-- The greeting handler bound as a dispatcher handler for the typed
message universe. -/
def greetingHandlerFn : HandlerFn := fun m info _ =>
  match m with
  | .greetReq r => .ok (.greetResp (MyExampleService.get_greeting r info))
  | _ => .error ("InvalidRequest", "expected GetGreetingRequest")

/-- Modelled from the spec: the generated `register_example_service`,
which registers the example service with methods `[echo, get_greeting]`
in declaration order. -/
def registerExampleService (id : String) : ServiceInstance :=
  registerService id "example.v1.ExampleService" "v1"
    [("echo", .echoReq, echoHandlerFn),
     ("get_greeting", .greetReq, greetingHandlerFn)]

/-- Modelled from the spec data flow: a full client call travelling
through the broker to the service dispatcher and back: the broker
delivers the client envelope to the service and returns the published
reply after `latency`; the handler runs at clock time `now`. -/
def callThroughService (svc : ServiceInstance) (method : String)
    (req : Msg) (respType : MsgType) (h : Headers) (timeout : Int)
    (latency now : Nat) : Except RpcError (Msg × Headers) :=
  call true
    (fun subject env => (onMessage svc subject env now).map fun r => (latency, r))
    svc.name svc.version method req respType h timeout

theorem decode_encode_aux (m : Msg) (h : Headers) :
    decode (encode m h) m.typeOf = .ok (m, h) := by
  simp [decode, encode, deserialize_serialize]

/-- Test handler shared by witnesses: fails on the message `boom`,
succeeds otherwise. -/
def boomHandlerFn : HandlerFn := fun m _ _ =>
  match m with
  | .echoReq r =>
    if r.message = "boom" then .error ("AppError", "boom rejected")
    else .ok (.echoResp ⟨r.message, 0⟩)
  | _ => .error ("InvalidRequest", "expected EchoRequest")

/-- Endpoint wrapping `boomHandlerFn`, used by witnesses. -/
def boomEndpoint : Endpoint :=
  Endpoint.mk "echo" (subjectOf "svc" "v1" "echo") .echoReq boomHandlerFn

/-- The echo endpoint of the example service as a standalone value. -/
def exampleEchoEndpoint : Endpoint :=
  Endpoint.mk "echo" (subjectOf "example.v1.ExampleService" "v1" "echo")
    .echoReq echoHandlerFn

/-- C1: decoding the envelope produced by encoding a valid typed message
`m` with a valid header map `h` returns exactly the pair `(m, h)`. -/
theorem C1_decode_encode_roundtrip (m : Msg) (h : Headers)
    (hv : h.valid) : decode (encode m h) m.typeOf = .ok (m, h) :=
  decode_encode_aux m h

/-- Witness for C1 at a concrete message and header map. -/
theorem C1_witness :
    Headers.valid [("X-User-ID", "12345"), ("X-Request-ID", "abc-def")] ∧
    decode (encode (.echoReq ⟨"Hello from Python!"⟩)
        [("X-User-ID", "12345"), ("X-Request-ID", "abc-def")]) .echoReq
      = .ok (.echoReq ⟨"Hello from Python!"⟩,
          [("X-User-ID", "12345"), ("X-Request-ID", "abc-def")]) :=
  ⟨by decide, C1_decode_encode_roundtrip _ _ (by decide)⟩

/-- C2: every client stub call terminates with either a typed
response-plus-headers or one of the typed errors; in particular a reply
envelope that is not an error envelope and cannot be decoded always
surfaces as `DecodeError`, never as a corrupted response. -/
theorem C2_call_typed_outcome (connected : Bool)
    (net : String → Envelope → Option (Nat × Envelope))
    (service version method : String) (req : Msg) (respType : MsgType)
    (h : Headers) (timeout : Int) :
    ((∃ r rh, call connected net service version method req respType h
        timeout = .ok (r, rh)) ∨
      (∃ e, call connected net service version method req respType h
        timeout = .error e)) ∧
    (∀ reply msg,
      Transport.request connected net (subjectOf service version method)
          (encode req h) timeout = .ok reply →
      reply.isError = false →
      decode reply respType = .error (.decodeError msg) →
      call connected net service version method req respType h timeout
        = .error (.decodeError msg)) := by
  constructor
  · match hc : call connected net service version method req respType h
        timeout with
    | .ok rrh => exact .inl ⟨rrh.1, rrh.2, rfl⟩
    | .error e => exact .inr ⟨e, rfl⟩
  · intro reply msg htr hie hdec
    simp [call, htr, hie, hdec]

/-- Witness for C2: a transport that replies with an undecodable envelope
makes the call fail with `DecodeError`. -/
theorem C2_witness :
    call true (fun _ _ => some (0, ⟨[], []⟩)) "svc" "v1" "echo"
        (.echoReq ⟨"Hello"⟩) .echoResp [] 5
      = .error (.decodeError "payload does not match expected schema") :=
  (C2_call_typed_outcome true (fun _ _ => some (0, ⟨[], []⟩)) "svc" "v1"
      "echo" (.echoReq ⟨"Hello"⟩) .echoResp [] 5).2
    ⟨[], []⟩ "payload does not match expected schema" rfl rfl rfl

/-- C3: a handler failure is caught and converted into a structured error
envelope published for that request, a concurrently dispatched request
with a different correlation still succeeds unaffected, and the dispatch
loop answers every inbound message. -/
theorem C3_handler_failure_isolated (ep : Endpoint) (now : Nat)
    (ca cb : String) (envA envB : Envelope) (ra rb respB : Msg)
    (ha hb : Headers) (code emsg : String)
    (hcorr : ca ≠ cb)
    (hdA : decode envA ep.reqType = .ok (ra, ha))
    (hfA : ep.handler ra (contextOf envA) now = .error (code, emsg))
    (hdB : decode envB ep.reqType = .ok (rb, hb))
    (hsB : ep.handler rb (contextOf envB) now = .ok respB) :
    dispatchAll ep now [(ca, envA), (cb, envB)]
      = [(ca, encodeError code emsg), (cb, encode respB [])] ∧
    (encodeError code emsg).isError = true ∧
    (∀ msgs, (dispatchAll ep now msgs).length = msgs.length) := by
  refine ⟨?_, by simp [encodeError, Envelope.isError],
    fun msgs => by simp [dispatchAll]⟩
  simp [dispatchAll, handleMessage, hdA, hfA, hdB, hsB]

/-- Witness for C3: with the boom endpoint, the failing request `boom`
yields an error envelope while the concurrent request `fine` succeeds. -/
theorem C3_witness :
    dispatchAll boomEndpoint 0
        [("corr-A", encode (.echoReq ⟨"boom"⟩) []),
         ("corr-B", encode (.echoReq ⟨"fine"⟩) [])]
      = [("corr-A", encodeError "AppError" "boom rejected"),
         ("corr-B", encode (.echoResp ⟨"fine", 0⟩) [])] :=
  (C3_handler_failure_isolated boomEndpoint 0 "corr-A" "corr-B"
      (encode (.echoReq ⟨"boom"⟩) []) (encode (.echoReq ⟨"fine"⟩) [])
      (.echoReq ⟨"boom"⟩) (.echoReq ⟨"fine"⟩) (.echoResp ⟨"fine", 0⟩)
      [] [] "AppError" "boom rejected"
      (by decide) rfl rfl rfl rfl).1

/-- C4: a client call issued with a non-positive timeout always fails with
`Timeout`, expiring immediately and deterministically. -/
theorem C4_nonpositive_timeout (connected : Bool)
    (net : String → Envelope → Option (Nat × Envelope))
    (service version method : String) (req : Msg) (respType : MsgType)
    (h : Headers) (timeout : Int) (hto : timeout ≤ 0) :
    call connected net service version method req respType h timeout
      = .error (.timeout method 0) := by
  simp [call, Transport.request, if_pos hto]

/-- Witness for C4: a zero-timeout call fails with `Timeout` even on a
live transport. -/
theorem C4_witness :
    call true (fun _ env => some (0, env)) "example.v1.ExampleService" "v1"
        "get_greeting" (.greetReq ⟨"Python Developer"⟩) .greetResp [] 0
      = .error (.timeout "get_greeting" 0) :=
  C4_nonpositive_timeout true (fun _ env => some (0, env))
    "example.v1.ExampleService" "v1" "get_greeting"
    (.greetReq ⟨"Python Developer"⟩) .greetResp [] 0 (by decide)

/-- C5: after `stop()` completes the instance state is `Stopped` and no
inbound message triggers a handler invocation; already from the start of
`Stopping` no new message is accepted. -/
theorem C5_stop_semantics (s : ServiceInstance) :
    s.stop.info.state = .stopped ∧
    (∀ subject env now, onMessage s.stop subject env now = none) ∧
    (∀ subject env now, onMessage s.beginStop subject env now = none) := by
  refine ⟨rfl, ?_, ?_⟩ <;> intro subject env now <;>
    simp [onMessage, acceptsMessage, ServiceInstance.stop,
      ServiceInstance.beginStop]

/-- C6: headers attached by a client reach the handler context unmodified:
the dispatcher invokes the endpoint handler with exactly the header list
of the request envelope, order preserved. -/
theorem C6_headers_reach_handler (ep : Endpoint) (now : Nat) (m : Msg)
    (h : Headers) (ht : m.typeOf = ep.reqType) :
    contextOf (encode m h) = ⟨h⟩ ∧
    handleMessage ep now (encode m h)
      = match ep.handler m ⟨h⟩ now with
        | .ok resp => encode resp []
        | .error cm => encodeError cm.1 cm.2 := by
  have hd : decode { payload := m.serialize, headers := h } ep.reqType
      = .ok (m, h) := by
    rw [← ht]; exact decode_encode_aux m h
  exact ⟨rfl, by simp [handleMessage, hd, contextOf, encode]⟩

/-- Witness for C6: the client header `X-User-ID: 12345` is observed
verbatim by the handler context. -/
theorem C6_witness :
    contextOf (encode (.echoReq ⟨"Hello"⟩) [("X-User-ID", "12345")])
      = ⟨[("X-User-ID", "12345")]⟩ ∧
    Headers.lookup
        (contextOf (encode (.echoReq ⟨"Hello"⟩)
          [("X-User-ID", "12345")])).headers "X-User-ID"
      = some "12345" :=
  ⟨(C6_headers_reach_handler exampleEchoEndpoint 0 (.echoReq ⟨"Hello"⟩)
      [("X-User-ID", "12345")] rfl).1, by decide⟩

/-- C7: `endpoints()` returns exactly the registered method names in
registration order; for the example service these are
`[echo, get_greeting]` and no others. -/
theorem C7_endpoints_enumeration :
    (∀ id name version methods,
      (registerService id name version methods).endpoints
        = methods.map (fun m => m.1)) ∧
    (∀ id, (registerExampleService id).endpoints
        = ["echo", "get_greeting"]) := by
  constructor
  · intro id name version methods
    simp [registerService, ServiceInstance.endpoints]
  · intro id
    rfl

/-- C8: end-to-end echo scenario: the client sends `EchoRequest{Hello}`
through the registered example service; when the handler clock is at or
after the send time and the reply arrives within the timeout, the client
receives the identical message with timestamp ≥ the send time. -/
theorem C8_echo_end_to_end (id : String) (h : Headers)
    (sendTime now latency : Nat) (timeout : Int)
    (hmono : sendTime ≤ now) (hlat : (latency : Int) < timeout) :
    callThroughService (registerExampleService id) "echo"
        (.echoReq ⟨"Hello"⟩) .echoResp h timeout latency now
      = .ok (.echoResp ⟨"Hello", now⟩, [])
      ∧ sendTime ≤ (EchoResponse.mk "Hello" now).timestamp := by
  have hto : ¬ (timeout ≤ 0) := by omega
  have hname : (registerExampleService id).name
      = "example.v1.ExampleService" := rfl
  have hver : (registerExampleService id).version = "v1" := rfl
  have hmsg : onMessage (registerExampleService id)
      (subjectOf "example.v1.ExampleService" "v1" "echo")
      (encode (.echoReq ⟨"Hello"⟩) h) now
      = some (encode (.echoResp ⟨"Hello", now⟩) []) := rfl
  have hd2 : decode (encode (.echoResp ⟨"Hello", now⟩) []) .echoResp
      = .ok (.echoResp ⟨"Hello", now⟩, []) := decode_encode_aux _ _
  have hie : (encode (.echoResp ⟨"Hello", now⟩) []).isError = false := rfl
  refine ⟨?_, hmono⟩
  simp only [callThroughService, hname, hver]
  simp [call, Transport.request, hto, hmsg, hlat, hie, hd2]

/-- Witness for C8 at concrete times: send at 10, handler clock 12,
latency 1, timeout 5. -/
theorem C8_witness :
    callThroughService (registerExampleService "svc-1") "echo"
        (.echoReq ⟨"Hello"⟩) .echoResp [] 5 1 12
      = .ok (.echoResp ⟨"Hello", 12⟩, []) :=
  (C8_echo_end_to_end "svc-1" [] 10 12 1 5 (by decide) (by decide)).1

/-- C9: the example echo handler returns the request message verbatim with
a non-negative timestamp, independently of the ServerInfo and hence of the
request headers. -/
theorem C9_echo_handler (req : EchoRequest) (i1 i2 : ServerInfo)
    (now : Nat) :
    (MyExampleService.echo req i1 now).message = req.message ∧
    0 ≤ (MyExampleService.echo req i1 now).timestamp ∧
    MyExampleService.echo req i1 now = MyExampleService.echo req i2 now :=
  ⟨rfl, Nat.zero_le _, rfl⟩

/-- C10: the example greeting handler returns exactly
`"Hello, " ++ name ++ "!"`, depending only on the request name and on
nothing in the ServerInfo. -/
theorem C10_get_greeting_handler (req : GetGreetingRequest)
    (i1 i2 : ServerInfo) :
    (MyExampleService.get_greeting req i1).greeting
      = "Hello, " ++ req.name ++ "!" ∧
    MyExampleService.get_greeting req i1
      = MyExampleService.get_greeting req i2 :=
  ⟨rfl, rfl⟩

end NatsMicro
